import Mathlib

/-!
Shallow embedding of the IoT home-automation controller
(gas alarm, garden light, water-tank motor, relay and buzzer drivers).

Each hardware read is nondeterministic, so every read the code performs
during one loop tick is a separate field of `TickInput`, in the order the
code issues the reads.  Simulation-mode random sampling and hardware pin
reads are both modelled this way.  Presentational string fields of the
Python status dictionaries are omitted; every boolean or numeric field is
kept.  Telemetry calls are modelled by the events they emit and by the
`send_to_blynk` / `log_event` result functions; the control code discards
their results, which the embedding reflects by not threading them into
the state.
-/

namespace HomeAuto

/-- Relay driver state: four physical output lines, ACTIVE LOW
(0 = appliance on, 1 = appliance off), mirroring
controllers/relay_controller.py simulation fields
light_state / fan_state / motor_state / garden_state. -/
structure RelayController where
  light_state : Nat
  fan_state : Nat
  motor_state : Nat
  garden_state : Nat
  deriving DecidableEq

/-- turn_off_all: drives every relay line to 1 (all appliances off). -/
def RelayController.turn_off_all (_ : RelayController) : RelayController :=
  ⟨1, 1, 1, 1⟩

/-- The constructor first sets every line to 1 and then calls
turn_off_all, exactly as RelayController.__init__ does. -/
def RelayController.init : RelayController :=
  RelayController.turn_off_all ⟨1, 1, 1, 1⟩

/-- control_light: active-low write, value = 0 when state is on else 1. -/
def RelayController.control_light (r : RelayController) (state : Bool) : RelayController :=
  { r with light_state := if state then 0 else 1 }

/-- control_fan: active-low write to the fan line. -/
def RelayController.control_fan (r : RelayController) (state : Bool) : RelayController :=
  { r with fan_state := if state then 0 else 1 }

/-- control_motor: active-low write to the water-motor line. -/
def RelayController.control_motor (r : RelayController) (state : Bool) : RelayController :=
  { r with motor_state := if state then 0 else 1 }

/-- control_garden_light: active-low write to the garden-light line. -/
def RelayController.control_garden_light (r : RelayController) (state : Bool) : RelayController :=
  { r with garden_state := if state then 0 else 1 }

/-- Logical readback reported by RelayController.get_status
(true means the appliance is on). -/
structure RelayStatus where
  light : Bool
  fan : Bool
  motor : Bool
  garden : Bool
  deriving DecidableEq

/-- get_status: Python computes `not state`, which on the 0/1 line values
is the test state == 0, inverting the active-low encoding. -/
def RelayController.get_status (r : RelayController) : RelayStatus :=
  ⟨r.light_state == 0, r.fan_state == 0, r.motor_state == 0, r.garden_state == 0⟩

/-- Buzzer driver state: the drive line value (0 or 1) and the
is_alarming latch, mirroring controllers/buzzer_controller.py. -/
structure BuzzerController where
  buzzer_state : Nat
  is_alarming : Bool
  deriving DecidableEq

/-- The constructor starts with the line low and the latch cleared. -/
def BuzzerController.init : BuzzerController :=
  ⟨0, false⟩

/-- alarm_on: drive the line high and set the latch. -/
def BuzzerController.alarm_on (_ : BuzzerController) : BuzzerController :=
  ⟨1, true⟩

/-- alarm_off: drive the line low and clear the latch. -/
def BuzzerController.alarm_off (_ : BuzzerController) : BuzzerController :=
  ⟨0, false⟩

/-- beep: alarm_on, sleep, alarm_off. -/
def BuzzerController.beep (b : BuzzerController) : BuzzerController :=
  BuzzerController.alarm_off (BuzzerController.alarm_on b)

/-- beep_pattern: `count` repetitions of beep (sleeps elided). -/
def BuzzerController.beep_pattern (b : BuzzerController) : Nat → BuzzerController
  | 0 => b
  | Nat.succ n => BuzzerController.beep_pattern (BuzzerController.beep b) n

/-- Consistency between the alarm latch and the drive line. -/
def BuzzerController.inv (b : BuzzerController) : Prop :=
  b.is_alarming = (b.buzzer_state == 1)

instance (b : BuzzerController) : Decidable (BuzzerController.inv b) := by
  unfold BuzzerController.inv
  infer_instance

/-- GasSensor.is_gas_detected: one fresh analog read compared strictly
against the configured threshold. -/
def is_gas_detected (analog threshold : Nat) : Bool :=
  decide (threshold < analog)

/-- Numeric and boolean fields of the dictionary returned by
GasSensor.get_status (status_text omitted as presentational). -/
structure GasStatus where
  analog : Nat
  digital : Nat
  detected : Bool
  warmup_complete : Bool
  deriving DecidableEq

/-- GasSensor.get_status issues three reads in order: read_analog for
the analog field (a1), read_digital for the digital field (d), and a
second read_analog inside is_gas_detected for the detected field (a2). -/
def GasSensor.get_status (threshold a1 d a2 : Nat) (w : Bool) : GasStatus :=
  ⟨a1, d, is_gas_detected a2 threshold, w⟩

/-- LDRSensor.is_dark: the LDR module outputs LOW (0) when dark. -/
def LDRSensor.is_dark (v : Nat) : Bool :=
  v == 0

/-- Fields of the dictionary returned by LDRSensor.get_status
(string fields omitted). -/
structure LDRStatus where
  digital : Nat
  is_dark : Bool
  deriving DecidableEq

/-- LDRSensor.get_status issues two reads in order: one inside is_dark
(ldr1) and one inside read for the digital field (ldr2). -/
def LDRSensor.get_status (ldr1 ldr2 : Nat) : LDRStatus :=
  ⟨ldr2, LDRSensor.is_dark ldr1⟩

/-- WaterLevelSensor.is_overhead_full: float pin reads 1 when full. -/
def WaterLevelSensor.is_overhead_full (v : Nat) : Bool :=
  v == 1

/-- WaterLevelSensor.is_underground_empty: float pin reads 0 when empty. -/
def WaterLevelSensor.is_underground_empty (v : Nat) : Bool :=
  v == 0

/-- WaterLevelSensor.can_run_motor: one fresh read of each float pin;
the motor may run only when the overhead tank is not full and the
underground tank is not empty. -/
def WaterLevelSensor.can_run_motor (oh ug : Nat) : Bool :=
  !(WaterLevelSensor.is_overhead_full oh) && !(WaterLevelSensor.is_underground_empty ug)

/-- Boolean fields of the dictionary returned by
WaterLevelSensor.get_tank_status (string fields omitted). -/
structure TankStatus where
  overhead_full : Bool
  underground_empty : Bool
  can_run_motor : Bool
  deriving DecidableEq

/-- get_tank_status issues four reads in order: is_overhead_full (oh1),
is_underground_empty (ug1), then can_run_motor re-reads both pins
(oh2, ug2). -/
def WaterLevelSensor.get_tank_status (oh1 ug1 oh2 ug2 : Nat) : TankStatus :=
  ⟨WaterLevelSensor.is_overhead_full oh1,
   WaterLevelSensor.is_underground_empty ug1,
   WaterLevelSensor.can_run_motor oh2 ug2⟩

/-- Observable outputs of one gas-handling pass: the console alert
banner, the Blynk gas-level update, the Blynk gas_alert log_event call,
and the console back-to-normal message. -/
inductive Event where
  | alertPrint (level : Nat)
  | blynkGasLevel (level : Nat)
  | blynkGasAlertLog
  | clearedPrint

/-- Number of console alert banners in an event list. -/
def countAlertPrint : List Event → Nat
  | [] => 0
  | Event.alertPrint _ :: es => countAlertPrint es + 1
  | _ :: es => countAlertPrint es

/-- Number of Blynk gas_alert log_event calls in an event list. -/
def countGasAlertLog : List Event → Nat
  | [] => 0
  | Event.blynkGasAlertLog :: es => countGasAlertLog es + 1
  | _ :: es => countGasAlertLog es

/-- Number of back-to-normal console messages in an event list. -/
def countClearedPrint : List Event → Nat
  | [] => 0
  | Event.clearedPrint :: es => countClearedPrint es + 1
  | _ :: es => countClearedPrint es

/-- Every hardware read one loop tick performs, in program order, plus
the manual-override flags the tick consults.  gasA1/gasD/gasA2 feed
GasSensor.get_status, ldr1/ldr2 feed LDRSensor.get_status, and
oh1/ug1/oh2/ug2 feed WaterLevelSensor.get_tank_status. -/
structure TickInput where
  gasA1 : Nat
  gasD : Nat
  gasA2 : Nat
  ldr1 : Nat
  ldr2 : Nat
  oh1 : Nat
  ug1 : Nat
  oh2 : Nat
  ug2 : Nat
  ovGarden : Bool
  ovMotor : Bool

/-- Mutable controller state carried across ticks. -/
structure SysState where
  relay : RelayController
  buzzer : BuzzerController
  deriving DecidableEq

/-- HomeAutomationSystem.handle_gas_detection: when the status reports
gas detected, the alert banner prints only if the latch is clear, the
alarm always turns on, and when connected the Blynk update and the
gas_alert log_event are issued (these sit outside the latch test, so
they repeat every detected tick).  When not detected, a previously
alarming system prints the cleared message and silences the alarm. -/
def handle_gas_detection (connected : Bool) (threshold : Nat)
    (b : BuzzerController) (inp : TickInput) : BuzzerController × List Event :=
  let gs := GasSensor.get_status threshold inp.gasA1 inp.gasD inp.gasA2 true
  if gs.detected then
    let alertEvents := if b.is_alarming then [] else [Event.alertPrint gs.analog]
    let blynkEvents :=
      if connected then [Event.blynkGasLevel gs.analog, Event.blynkGasAlertLog] else []
    (BuzzerController.alarm_on b, alertEvents ++ blynkEvents)
  else if b.is_alarming then
    (BuzzerController.alarm_off b, [Event.clearedPrint])
  else
    (b, [])

/-- HomeAutomationSystem.handle_garden_light: with no garden override,
the garden relay follows the is_dark field of the LDR status; under
override the relay is untouched. -/
def handle_garden_light (r : RelayController) (inp : TickInput) : RelayController :=
  let ldr := LDRSensor.get_status inp.ldr1 inp.ldr2
  if !inp.ovGarden then
    if ldr.is_dark then
      RelayController.control_garden_light r true
    else
      RelayController.control_garden_light r false
  else
    r

/-- HomeAutomationSystem.handle_water_tank: with no motor override, the
motor relay follows the can_run_motor field of the tank status; under
override the relay is untouched. -/
def handle_water_tank (r : RelayController) (inp : TickInput) : RelayController :=
  let tank := WaterLevelSensor.get_tank_status inp.oh1 inp.ug1 inp.oh2 inp.ug2
  if !inp.ovMotor then
    if tank.can_run_motor then
      RelayController.control_motor r true
    else
      RelayController.control_motor r false
  else
    r

/-- One iteration of HomeAutomationSystem.run: gas handling first, then
garden light, then water tank.  Status printing and the periodic Blynk
pushes read sensors but change no controller state, so they contribute
no state transition here. -/
def tick (connected : Bool) (threshold : Nat) (st : SysState) (inp : TickInput) :
    SysState × List Event :=
  let gas := handle_gas_detection connected threshold st.buzzer inp
  let r1 := handle_garden_light st.relay inp
  let r2 := handle_water_tank r1 inp
  (⟨r2, gas.1⟩, gas.2)

/-- State after HomeAutomationSystem.__init__: relays initialised via
turn_off_all and the two-beep ready pattern played on the buzzer. -/
def init_state : SysState :=
  ⟨RelayController.init, BuzzerController.beep_pattern BuzzerController.init 2⟩

/-- Iterated ticks from a starting state through a list of per-tick
inputs; the final states of runs from init_state are the reachable
states of the control loop. -/
def runTicks (connected : Bool) (threshold : Nat) : SysState → List TickInput → SysState
  | st, [] => st
  | st, inp :: rest => runTicks connected threshold (tick connected threshold st inp).1 rest

/-- HomeAutomationSystem.cleanup: turn_off_all on the relays, then
alarm_off on the buzzer (WiFi teardown has no controller state). -/
def cleanup (st : SysState) : SysState :=
  ⟨RelayController.turn_off_all st.relay, BuzzerController.alarm_off st.buzzer⟩

/-- Result of one telemetry call: the boolean the Python method returns
and whether a network request was issued at all. -/
structure BlynkResult where
  ok : Bool
  attempted : Bool
  deriving DecidableEq

/-- HomeAutomationSystem.send_to_blynk: returns False immediately when
not connected or not on hardware; otherwise issues the request, and the
try/except turns any request failure (netOk false) into False. -/
def send_to_blynk (connected micropython netOk : Bool) : BlynkResult :=
  if !connected || !micropython then ⟨false, false⟩
  else if netOk then ⟨true, true⟩
  else ⟨false, true⟩

/-- HomeAutomationSystem.log_event: same guard and try/except shape as
send_to_blynk. -/
def log_event (connected micropython netOk : Bool) : BlynkResult :=
  if !connected || !micropython then ⟨false, false⟩
  else if netOk then ⟨true, true⟩
  else ⟨false, true⟩

/-- The relay component of one tick is the garden handler followed by
the water-tank handler; gas handling never touches the relays. -/
theorem tick_relay (c : Bool) (th : Nat) (st : SysState) (inp : TickInput) :
    (tick c th st inp).1.relay =
      handle_water_tank (handle_garden_light st.relay inp) inp := rfl

/-- The buzzer component of one tick is produced by the gas handler. -/
theorem tick_buzzer (c : Bool) (th : Nat) (st : SysState) (inp : TickInput) :
    (tick c th st inp).1.buzzer = (handle_gas_detection c th st.buzzer inp).1 := rfl

/-- The garden-light handler never touches the motor line. -/
theorem handle_garden_light_motor_state (r : RelayController) (inp : TickInput) :
    (handle_garden_light r inp).motor_state = r.motor_state := by
  unfold handle_garden_light
  cases inp.ovGarden <;>
    cases h : (LDRSensor.get_status inp.ldr1 inp.ldr2).is_dark <;>
      simp [RelayController.control_garden_light, h]

/-- The water-tank handler never touches the garden line. -/
theorem handle_water_tank_garden_state (r : RelayController) (inp : TickInput) :
    (handle_water_tank r inp).garden_state = r.garden_state := by
  unfold handle_water_tank
  cases inp.ovMotor <;>
    cases h : (WaterLevelSensor.get_tank_status inp.oh1 inp.ug1 inp.oh2 inp.ug2).can_run_motor <;>
      simp [RelayController.control_motor, h]

/-- With no motor override the water-tank handler drives the motor line
from the can_run_motor field, which re-reads both pins (oh2, ug2). -/
theorem handle_water_tank_motor_state_of_false (r : RelayController) (inp : TickInput)
    (h : inp.ovMotor = false) :
    (handle_water_tank r inp).motor_state =
      if WaterLevelSensor.can_run_motor inp.oh2 inp.ug2 then 0 else 1 := by
  unfold handle_water_tank
  cases hc : WaterLevelSensor.can_run_motor inp.oh2 inp.ug2 <;>
    simp [h, RelayController.control_motor, WaterLevelSensor.get_tank_status, hc]

/-- With the motor override set the water-tank handler is the identity. -/
theorem handle_water_tank_of_true (r : RelayController) (inp : TickInput)
    (h : inp.ovMotor = true) :
    handle_water_tank r inp = r := by
  unfold handle_water_tank
  simp [h]

/-- With no garden override the garden handler drives the garden line
from the is_dark field, which uses the first LDR read (ldr1). -/
theorem handle_garden_light_garden_state_of_false (r : RelayController) (inp : TickInput)
    (h : inp.ovGarden = false) :
    (handle_garden_light r inp).garden_state =
      if LDRSensor.is_dark inp.ldr1 then 0 else 1 := by
  unfold handle_garden_light
  cases hd : LDRSensor.is_dark inp.ldr1 <;>
    simp [h, RelayController.control_garden_light, LDRSensor.get_status, hd]

/-- With the garden override set the garden handler is the identity. -/
theorem handle_garden_light_of_true (r : RelayController) (inp : TickInput)
    (h : inp.ovGarden = true) :
    handle_garden_light r inp = r := by
  unfold handle_garden_light
  simp [h]

/-- Splitting the final tick off a run of the loop. -/
theorem runTicks_append_single (c : Bool) (th : Nat) (st : SysState)
    (ts : List TickInput) (t : TickInput) :
    runTicks c th st (ts ++ [t]) = (tick c th (runTicks c th st ts) t).1 := by
  induction ts generalizing st with
  | nil => rfl
  | cons a as ih => exact ih ((tick c th st a).1)

/-- C4: gas is classified as detected iff the analog reading is strictly
greater than the configured threshold; a reading exactly equal to the
threshold is normal; the detected field of the status the policy uses is
the analog comparison, and the gas handler is unaffected by the raw
digital pin value. -/
theorem C4_strict_analog_threshold (a t : Nat) :
    (is_gas_detected a t = true ↔ t < a) ∧
    is_gas_detected t t = false ∧
    (∀ (a1 d a2 : Nat) (w : Bool),
      (GasSensor.get_status t a1 d a2 w).detected = is_gas_detected a2 t) ∧
    (∀ (c : Bool) (b : BuzzerController) (inp : TickInput) (d : Nat),
      handle_gas_detection c t b { inp with gasD := d } =
        handle_gas_detection c t b inp) := by
  refine ⟨?_, ?_, fun a1 d a2 w => rfl, fun c b inp d => rfl⟩
  · simp [is_gas_detected]
  · simp [is_gas_detected]

/-- C5: with no garden override a tick sets the garden light to is_dark,
where dark means the LDR digital line read 0; with the override set the
tick leaves the garden relay line untouched. -/
theorem C5_garden_follows_is_dark (c : Bool) (th : Nat) (st : SysState) (inp : TickInput) :
    (inp.ovGarden = false →
      (RelayController.get_status (tick c th st inp).1.relay).garden =
        LDRSensor.is_dark inp.ldr1) ∧
    (inp.ovGarden = true →
      (tick c th st inp).1.relay.garden_state = st.relay.garden_state) ∧
    LDRSensor.is_dark 0 = true ∧ LDRSensor.is_dark 1 = false := by
  refine ⟨?_, ?_, rfl, rfl⟩
  · intro h
    rw [RelayController.get_status]
    rw [tick_relay, handle_water_tank_garden_state,
      handle_garden_light_garden_state_of_false st.relay inp h]
    cases hd : LDRSensor.is_dark inp.ldr1 <;> simp [hd]
  · intro h
    rw [tick_relay, handle_water_tank_garden_state, handle_garden_light_of_true st.relay inp h]

/-- C5 witness: a dark tick (LDR line 0) with no overrides turns the
garden light on. -/
theorem C5_garden_follows_is_dark_wit :
    (RelayController.get_status
      (tick false 400 init_state ⟨100, 0, 100, 0, 0, 0, 1, 0, 1, false, false⟩).1.relay).garden =
      LDRSensor.is_dark 0 :=
  (C5_garden_follows_is_dark false 400 init_state
    ⟨100, 0, 100, 0, 0, 0, 1, 0, 1, false, false⟩).1 rfl

/-- C7: cleanup from any prior state leaves every appliance logically
off and the buzzer silenced with the latch cleared, and it is the same
turn_off_all operation the relay constructor runs at startup, which
establishes the all-off state there as well. -/
theorem C7_cleanup_all_off (st : SysState) :
    RelayController.get_status (cleanup st).relay = ⟨false, false, false, false⟩ ∧
    (cleanup st).buzzer.is_alarming = false ∧
    (cleanup st).buzzer.buzzer_state = 0 ∧
    (cleanup st).relay = RelayController.turn_off_all st.relay ∧
    RelayController.init = RelayController.turn_off_all ⟨1, 1, 1, 1⟩ ∧
    RelayController.get_status RelayController.init = ⟨false, false, false, false⟩ :=
  ⟨rfl, rfl, rfl, rfl, rfl, rfl⟩

/-- C8: telemetry is non-fatal and gated on connectivity: when not
connected both calls return False without attempting a request, any
request failure is caught and returned as False, and the local
gas/garden/motor state transition of a tick is identical whatever the
connectivity (the code also discards both result booleans, so no
telemetry outcome reaches the handlers). -/
theorem C8_telemetry_never_blocks :
    (∀ mp net : Bool, send_to_blynk false mp net = ⟨false, false⟩) ∧
    (∀ mp net : Bool, log_event false mp net = ⟨false, false⟩) ∧
    (∀ c mp : Bool, (send_to_blynk c mp false).ok = false) ∧
    (∀ c mp : Bool, (log_event c mp false).ok = false) ∧
    (∀ (th : Nat) (st : SysState) (inp : TickInput) (c c' : Bool),
      (tick c th st inp).1 = (tick c' th st inp).1) := by
  refine ⟨fun mp net => rfl, fun mp net => rfl, ?_, ?_, ?_⟩
  · intro c mp
    cases c <;> cases mp <;> rfl
  · intro c mp
    cases c <;> cases mp <;> rfl
  · intro th st inp c c'
    unfold tick handle_gas_detection
    cases hd : (GasSensor.get_status th inp.gasA1 inp.gasD inp.gasA2 true).detected <;>
      simp [hd]

/-- C10: each single-appliance relay command sets exactly its own field
of the logical status readback (inverting the active-low line encoding)
and leaves the other three status fields unchanged. -/
theorem C10_relay_commands_frame (r : RelayController) (s : Bool) :
    RelayController.get_status (RelayController.control_light r s) =
      { RelayController.get_status r with light := s } ∧
    RelayController.get_status (RelayController.control_fan r s) =
      { RelayController.get_status r with fan := s } ∧
    RelayController.get_status (RelayController.control_motor r s) =
      { RelayController.get_status r with motor := s } ∧
    RelayController.get_status (RelayController.control_garden_light r s) =
      { RelayController.get_status r with garden := s } := by
  cases s <;> exact ⟨rfl, rfl, rfl, rfl⟩

/-- C9: the buzzer latch is consistent with its drive line: after
construction and after each of alarm_on, alarm_off, beep and
beep_pattern, is_alarming holds exactly when the line is driven to 1
(for beep_pattern, assuming the consistency held before, since a
zero-count pattern leaves the state untouched). -/
theorem C9_buzzer_latch_line_consistent :
    BuzzerController.inv BuzzerController.init ∧
    (∀ b, BuzzerController.inv (BuzzerController.alarm_on b)) ∧
    (∀ b, BuzzerController.inv (BuzzerController.alarm_off b)) ∧
    (∀ b, BuzzerController.inv (BuzzerController.beep b)) ∧
    (∀ b n, BuzzerController.inv b →
      BuzzerController.inv (BuzzerController.beep_pattern b n)) := by
  refine ⟨rfl, fun b => rfl, fun b => rfl, fun b => rfl, ?_⟩
  intro b n
  induction n generalizing b with
  | zero => exact fun h => h
  | succ n ih => exact fun _ => ih (BuzzerController.beep b) rfl

/-- C9 witness: the startup two-beep ready pattern ends with the latch
and the line consistent. -/
theorem C9_buzzer_latch_line_consistent_wit :
    BuzzerController.inv (BuzzerController.beep_pattern BuzzerController.init 2) :=
  C9_buzzer_latch_line_consistent.2.2.2.2 BuzzerController.init 2 (by decide)

/-- C3: with no motor override and a tank reading that is stable across
the two reads of the tick, the tick sets the motor on iff the overhead
tank is not full and the underground tank is not empty; with the
override set the tick leaves the motor relay line untouched. -/
theorem C3_motor_rule (c : Bool) (th : Nat) (st : SysState) (inp : TickInput) :
    (inp.ovMotor = false → inp.oh1 = inp.oh2 → inp.ug1 = inp.ug2 →
      (RelayController.get_status (tick c th st inp).1.relay).motor =
        (!(WaterLevelSensor.is_overhead_full inp.oh1) &&
         !(WaterLevelSensor.is_underground_empty inp.ug1))) ∧
    (inp.ovMotor = true →
      (tick c th st inp).1.relay.motor_state = st.relay.motor_state) := by
  constructor
  · intro hov hoh hug
    rw [RelayController.get_status]
    rw [tick_relay,
      handle_water_tank_motor_state_of_false (handle_garden_light st.relay inp) inp hov]
    rw [hoh, hug]
    have hfold : (!(WaterLevelSensor.is_overhead_full inp.oh2) &&
        !(WaterLevelSensor.is_underground_empty inp.ug2)) =
        WaterLevelSensor.can_run_motor inp.oh2 inp.ug2 := rfl
    rw [hfold]
    cases hc : WaterLevelSensor.can_run_motor inp.oh2 inp.ug2 <;> rfl
  · intro hov
    rw [tick_relay, handle_water_tank_of_true (handle_garden_light st.relay inp) inp hov,
      handle_garden_light_motor_state]

/-- C3 witness: a tick with stable safe readings and no override turns
the motor on, and a tick under override leaves the line where it was. -/
theorem C3_motor_rule_wit :
    (RelayController.get_status
      (tick false 400 init_state ⟨100, 0, 100, 1, 1, 0, 1, 0, 1, false, false⟩).1.relay).motor =
      (!(WaterLevelSensor.is_overhead_full 0) &&
       !(WaterLevelSensor.is_underground_empty 1)) ∧
    (tick false 400 init_state ⟨100, 0, 100, 1, 1, 1, 1, 1, 1, false, true⟩).1.relay.motor_state =
      init_state.relay.motor_state :=
  ⟨(C3_motor_rule false 400 init_state ⟨100, 0, 100, 1, 1, 0, 1, 0, 1, false, false⟩).1
      rfl rfl rfl,
   (C3_motor_rule false 400 init_state ⟨100, 0, 100, 1, 1, 1, 1, 1, 1, false, true⟩).2 rfl⟩

/-- C2 counterexample: a reachable state violating the motor interlock.
Tick one (no override, tanks safe) turns the motor on; before tick two
the overhead tank becomes full and the motor override is switched on, so
tick two skips the motor rule and the motor stays on while both reads of
the overhead float report full. -/
theorem C2_motor_invariant_violated_cx :
    (RelayController.get_status
      (runTicks false 400 init_state
        [⟨100, 0, 100, 1, 1, 0, 1, 0, 1, false, false⟩,
         ⟨100, 0, 100, 1, 1, 1, 1, 1, 1, false, true⟩]).relay).motor = true ∧
    WaterLevelSensor.is_overhead_full
      (TickInput.oh1 ⟨100, 0, 100, 1, 1, 1, 1, 1, 1, false, true⟩) = true ∧
    WaterLevelSensor.is_overhead_full
      (TickInput.oh2 ⟨100, 0, 100, 1, 1, 1, 1, 1, 1, false, true⟩) = true ∧
    TickInput.ovMotor ⟨100, 0, 100, 1, 1, 1, 1, 1, 1, false, true⟩ = true := by
  decide

/-- C2 amended: the interlock holds in every reachable state whose most
recent tick ran with the motor override off and a stable tank reading:
there the motor is on iff that tick read the overhead tank not full and
the underground tank not empty.  When the most recent tick had the
override on, the motor line simply keeps its previous value, which is
how the counterexample violates the unrestricted invariant. -/
theorem C2_motor_interlock_when_override_off (c : Bool) (th : Nat)
    (ts : List TickInput) (t : TickInput)
    (hov : t.ovMotor = false) (hoh : t.oh1 = t.oh2) (hug : t.ug1 = t.ug2) :
    (RelayController.get_status (runTicks c th init_state (ts ++ [t])).relay).motor =
      (!(WaterLevelSensor.is_overhead_full t.oh1) &&
       !(WaterLevelSensor.is_underground_empty t.ug1)) := by
  rw [runTicks_append_single]
  rw [RelayController.get_status]
  rw [tick_relay,
    handle_water_tank_motor_state_of_false _ t hov]
  rw [hoh, hug]
  have hfold : (!(WaterLevelSensor.is_overhead_full t.oh2) &&
      !(WaterLevelSensor.is_underground_empty t.ug2)) =
      WaterLevelSensor.can_run_motor t.oh2 t.ug2 := rfl
  rw [hfold]
  cases hc : WaterLevelSensor.can_run_motor t.oh2 t.ug2 <;> rfl

/-- C2 amended witness: after a two-tick run whose final tick reads the
overhead tank full with the override off, the motor is off. -/
theorem C2_motor_interlock_when_override_off_wit :
    (RelayController.get_status
      (runTicks false 400 init_state
        ([⟨100, 0, 100, 1, 1, 0, 1, 0, 1, false, false⟩] ++
         [⟨100, 0, 100, 1, 1, 1, 1, 1, 1, false, false⟩])).relay).motor =
      (!(WaterLevelSensor.is_overhead_full 1) &&
       !(WaterLevelSensor.is_underground_empty 1)) :=
  C2_motor_interlock_when_override_off false 400
    [⟨100, 0, 100, 1, 1, 0, 1, 0, 1, false, false⟩]
    ⟨100, 0, 100, 1, 1, 1, 1, 1, 1, false, false⟩ rfl rfl rfl

/-- C1 counterexample: the gas notification is not edge-triggered.  With
the system connected, a first detected tick sets the alarm latch, and a
second tick that is still detected while already alarming issues the
gas_alert log_event again — the Blynk calls sit outside the latch test,
so the notification repeats on every detected tick. -/
theorem C1_notification_repeats_cx :
    (handle_gas_detection true 400 BuzzerController.init
      ⟨500, 1, 500, 1, 1, 0, 1, 0, 1, false, false⟩).1.is_alarming = true ∧
    countGasAlertLog
      (handle_gas_detection true 400
        (handle_gas_detection true 400 BuzzerController.init
          ⟨500, 1, 500, 1, 1, 0, 1, 0, 1, false, false⟩).1
        ⟨500, 1, 500, 1, 1, 0, 1, 0, 1, false, false⟩).2 = 1 := by
  decide

/-- C1 amended: the buzzer and the console messages behave as an
edge-triggered latch — on every detected tick the buzzer is driven on;
the console alert banner appears exactly once, on the not-alarming to
alarming transition; on a clearing tick the buzzer turns off, the latch
clears and exactly one back-to-normal message prints; when neither
alarming nor detected, nothing changes.  The Blynk gas notification,
however, is issued on every detected tick while connected, not only on
the transition. -/
theorem C1_gas_alarm_edge_latch (c : Bool) (th : Nat) (b : BuzzerController)
    (inp : TickInput) :
    (is_gas_detected inp.gasA2 th = true →
      (handle_gas_detection c th b inp).1.is_alarming = true ∧
      (handle_gas_detection c th b inp).1.buzzer_state = 1) ∧
    (is_gas_detected inp.gasA2 th = false → b.is_alarming = true →
      (handle_gas_detection c th b inp).1.is_alarming = false ∧
      (handle_gas_detection c th b inp).1.buzzer_state = 0 ∧
      (handle_gas_detection c th b inp).2 = [Event.clearedPrint]) ∧
    (is_gas_detected inp.gasA2 th = false → b.is_alarming = false →
      handle_gas_detection c th b inp = (b, [])) ∧
    (countAlertPrint (handle_gas_detection c th b inp).2 =
      if is_gas_detected inp.gasA2 th && !b.is_alarming then 1 else 0) ∧
    (countClearedPrint (handle_gas_detection c th b inp).2 =
      if !(is_gas_detected inp.gasA2 th) && b.is_alarming then 1 else 0) ∧
    (countGasAlertLog (handle_gas_detection c th b inp).2 =
      if is_gas_detected inp.gasA2 th && c then 1 else 0) := by
  have hdet : (GasSensor.get_status th inp.gasA1 inp.gasD inp.gasA2 true).detected =
      is_gas_detected inp.gasA2 th := rfl
  cases hd : is_gas_detected inp.gasA2 th <;> cases hb : b.is_alarming <;> cases c <;>
    simp [handle_gas_detection, hdet, hd, hb, countAlertPrint, countClearedPrint,
      countGasAlertLog, BuzzerController.alarm_on, BuzzerController.alarm_off]

/-- C1 amended witness: a detected tick from a quiet connected system
turns the alarm on, prints one banner and logs one notification. -/
theorem C1_gas_alarm_edge_latch_wit :
    ((handle_gas_detection true 400 BuzzerController.init
        ⟨500, 1, 500, 1, 1, 0, 1, 0, 1, false, false⟩).1.is_alarming = true ∧
      (handle_gas_detection true 400 BuzzerController.init
        ⟨500, 1, 500, 1, 1, 0, 1, 0, 1, false, false⟩).1.buzzer_state = 1) ∧
    handle_gas_detection true 400 ⟨0, false⟩
        ⟨100, 0, 100, 1, 1, 0, 1, 0, 1, false, false⟩ = (⟨0, false⟩, []) :=
  ⟨(C1_gas_alarm_edge_latch true 400 BuzzerController.init
      ⟨500, 1, 500, 1, 1, 0, 1, 0, 1, false, false⟩).1 rfl,
   (C1_gas_alarm_edge_latch true 400 ⟨0, false⟩
      ⟨100, 0, 100, 1, 1, 0, 1, 0, 1, false, false⟩).2.2.1 rfl rfl⟩

/-- C6 counterexample: one get_status call is not an atomic snapshot.
The detected field comes from a second analog read, so when the two
reads differ (here 500 then 100 against threshold 400) the status
reports analog 500 with detected false; likewise get_tank_status
re-reads both float pins for can_run_motor, so it can report both tanks
fine while can_run_motor is false. -/
theorem C6_status_not_atomic_cx :
    (GasSensor.get_status 400 500 0 100 true).analog = 500 ∧
    (GasSensor.get_status 400 500 0 100 true).detected ≠
      decide (400 < (GasSensor.get_status 400 500 0 100 true).analog) ∧
    (WaterLevelSensor.get_tank_status 0 1 1 1).overhead_full = false ∧
    (WaterLevelSensor.get_tank_status 0 1 1 1).underground_empty = false ∧
    (WaterLevelSensor.get_tank_status 0 1 1 1).can_run_motor ≠
      (!(WaterLevelSensor.get_tank_status 0 1 1 1).overhead_full &&
       !(WaterLevelSensor.get_tank_status 0 1 1 1).underground_empty) := by
  decide

/-- C6 amended: each status field performs its own fresh read, so the
snapshot is consistent only when the underlying reading is unchanged
across the call: under read stability the detected field equals the
strict threshold test on the reported analog value, and can_run_motor
equals the conjunction of the reported tank fields. -/
theorem C6_status_consistent_when_stable (th a1 d a2 oh1 ug1 oh2 ug2 : Nat) (w : Bool)
    (ha : a1 = a2) (hoh : oh1 = oh2) (hug : ug1 = ug2) :
    (GasSensor.get_status th a1 d a2 w).detected =
      decide (th < (GasSensor.get_status th a1 d a2 w).analog) ∧
    (WaterLevelSensor.get_tank_status oh1 ug1 oh2 ug2).can_run_motor =
      (!(WaterLevelSensor.get_tank_status oh1 ug1 oh2 ug2).overhead_full &&
       !(WaterLevelSensor.get_tank_status oh1 ug1 oh2 ug2).underground_empty) := by
  subst ha hoh hug
  exact ⟨rfl, rfl⟩

/-- C6 amended witness: with stable reads the gas status and the tank
status are internally consistent. -/
theorem C6_status_consistent_when_stable_wit :
    (GasSensor.get_status 400 500 0 500 true).detected =
      decide (400 < (GasSensor.get_status 400 500 0 500 true).analog) ∧
    (WaterLevelSensor.get_tank_status 0 1 0 1).can_run_motor =
      (!(WaterLevelSensor.get_tank_status 0 1 0 1).overhead_full &&
       !(WaterLevelSensor.get_tank_status 0 1 0 1).underground_empty) :=
  C6_status_consistent_when_stable 400 500 0 500 0 1 0 1 true rfl rfl rfl

end HomeAuto
